import Mathlib

/-
Verification of the neonthreads story-state mutation pipeline.

The definitions below are a shallow embedding of the server code:
  - src/server/src/routes/story.ts        (processInventoryChanges, applyStoryChanges,
                                           the combat damage calculation of the
                                           POST /:characterId/combat route)
  - src/server/src/routes/characters.ts   (the PATCH /:id/status route)
  - types from the shared types module    (Character, InventoryItem, StoryResponse,
                                           CombatResolution)

JavaScript numbers are modelled as Int (all mutations here are integer
arithmetic), and the JavaScript string operations used by the code
(toLowerCase, startsWith, substring, trim, includes) are modelled
charwise over the underlying character list of a Lean String.
-/

namespace NeonThreads

/-- Model of JavaScript s.toLowerCase(): lower-case every character. -/
def lowerStr (s : String) : String := ⟨s.data.map Char.toLower⟩

/-- Model of JavaScript s.substring(1): drop the first character. -/
def strDropOne (s : String) : String := ⟨s.data.drop 1⟩

/-- Model of JavaScript s.substring(0, n): take the first n characters. -/
def strTakeN (s : String) (n : Nat) : String := ⟨s.data.take n⟩

/-- Model of JavaScript s.trim(): strip leading and trailing whitespace. -/
def strTrim (s : String) : String :=
  ⟨((s.data.dropWhile Char.isWhitespace).reverse.dropWhile Char.isWhitespace).reverse⟩

/-- Model of JavaScript s.startsWith(p). -/
def strStartsWith (s p : String) : Bool := List.isPrefixOf p.data s.data

/-- Helper for strIncludes: does sub occur as a contiguous run inside the list. -/
def subOccurs (sub : List Char) : List Char → Bool
  | [] => sub.isEmpty
  | c :: rest => List.isPrefixOf sub (c :: rest) || subOccurs sub rest

/-- Model of JavaScript s.includes(sub): contiguous substring containment. -/
def strIncludes (s sub : String) : Bool := subOccurs sub.data s.data

/-- Model of the JavaScript expression x y on numbers restricted to the
integer case: x is falsy exactly when it is 0, in which case the default
d is produced. Used for the defaults health 100, maxHealth 100, money 500. -/
def jsOr (x d : Int) : Int := if x = 0 then d else x

/-- Item categories, the union type of InventoryItem.type in the shared
types module: weapon, tool, consumable, cyberware, misc. -/
inductive ItemType
  | weapon
  | tool
  | consumable
  | cyberware
  | misc
  deriving Repr, DecidableEq

/-- InventoryItem of the shared types module (name, description, quantity, type). -/
structure InventoryItem where
  name : String
  description : String
  quantity : Int
  type : ItemType
  deriving Repr, DecidableEq

/-- Character status, the union type alive or dead. -/
inductive Status
  | alive
  | dead
  deriving Repr, DecidableEq

/-- Character record restricted to the fields read or written by the
story-state mutation pipeline; the remaining fields (background, appearance,
story history, ...) are carried through every mutation unchanged by the
object spread in the source and play no role in the claims. -/
structure Character where
  id : String
  status : Status
  inventory : List InventoryItem
  money : Int
  health : Int
  maxHealth : Int
  deriving Repr, DecidableEq

/-- StoryResponse restricted to the mutation contract fields: scenario text
plus the three optional deltas. Absent optional fields are none. -/
structure StoryResponse where
  scenario : String
  healthChange : Option Int
  moneyChange : Option Int
  inventoryChanges : Option (List String)
  deriving Repr, DecidableEq

/-- CombatResolution restricted to the fields the combat route reads for the
damage calculation. The outcome and characterStatus fields are strings at
runtime (they come from untrusted provider JSON); the code compares them
against the literals used below. -/
structure CombatResolution where
  outcome : String
  characterInjuries : Option (List String)
  characterStatus : String
  deriving Repr, DecidableEq

/-- Keyword list of the weapon branch of the classification in
processInventoryChanges (story.ts lines 39-42). -/
def weaponKeywords : List String :=
  ["weapon", "gun", "knife", "sword", "blade", "rifle", "pistol", "ammo"]

/-- Keyword list of the cyberware branch (story.ts lines 43-45). -/
def cyberwareKeywords : List String :=
  ["cyberware", "implant", "augment", "mod"]

/-- Keyword list of the consumable branch (story.ts lines 46-49). -/
def consumableKeywords : List String :=
  ["medkit", "stim", "heal", "food", "drink", "consumable"]

/-- Keyword list of the tool branch (story.ts lines 50-52). -/
def toolKeywords : List String :=
  ["tool", "deck", "device", "equipment"]

/-- Disjunction of includes checks, as in the if conditions of the
classification: lowerName.includes(k1) or ... or lowerName.includes(kn). -/
def containsAny (s : String) (kws : List String) : Bool :=
  kws.any (fun k => strIncludes s k)

/-- Category inference for a newly acquired item, the if-else-if chain of
story.ts lines 36-53: weapon, then cyberware, then consumable, then tool,
otherwise misc, each tested by case-insensitive keyword containment. -/
def classifyItem (itemName : String) : ItemType :=
  let lowerName := lowerStr itemName
  if containsAny lowerName weaponKeywords then ItemType.weapon
  else if containsAny lowerName cyberwareKeywords then ItemType.cyberware
  else if containsAny lowerName consumableKeywords then ItemType.consumable
  else if containsAny lowerName toolKeywords then ItemType.tool
  else ItemType.misc

/-- New inventory entry created for an unmatched acquire directive
(story.ts lines 55-60): quantity 1, description synthesized from the first
100 characters of the story context, category from classifyItem. -/
def newItem (itemName storyContext : String) : InventoryItem :=
  { name := itemName
    description := "Acquired: " ++ strTakeN storyContext 100
    quantity := 1
    type := classifyItem itemName }

/-- Acquire directive application (story.ts lines 25-61): findIndex with a
case-insensitive name comparison; the first match gets its quantity
incremented by 1, and when no entry matches a new classified entry is
appended at the end. The structural recursion realizes exactly the
first-match findIndex followed by the in-place update or push. -/
def addItem (inv : List InventoryItem) (itemName storyContext : String) :
    List InventoryItem :=
  match inv with
  | [] => [newItem itemName storyContext]
  | item :: rest =>
    if lowerStr item.name == lowerStr itemName then
      { item with quantity := item.quantity + 1 } :: rest
    else
      item :: addItem rest itemName storyContext

/-- Lose directive application (story.ts lines 62-74): findIndex with a
case-insensitive name comparison; a first match with quantity above 1 is
decremented, otherwise the matching entry is spliced out; no match leaves
the inventory unchanged. -/
def removeItem (inv : List InventoryItem) (itemName : String) :
    List InventoryItem :=
  match inv with
  | [] => []
  | item :: rest =>
    if lowerStr item.name == lowerStr itemName then
      if item.quantity > 1 then { item with quantity := item.quantity - 1 } :: rest
      else rest
    else
      item :: removeItem rest itemName

/-- Dispatch on a single directive string (the loop body of
processInventoryChanges): a leading + acquires, a leading - loses, anything
else is ignored. The item name is substring(1).trim(). -/
def applyChange (storyContext : String) (inv : List InventoryItem)
    (change : String) : List InventoryItem :=
  if strStartsWith change ("+") then
    addItem inv (strTrim (strDropOne change)) storyContext
  else if strStartsWith change ("-") then
    removeItem inv (strTrim (strDropOne change))
  else
    inv

/-- processInventoryChanges of story.ts lines 17-78: left-to-right
application of the directive list to a copy of the character inventory. -/
def processInventoryChanges (character : Character)
    (inventoryChanges : List String) (storyContext : String) :
    List InventoryItem :=
  inventoryChanges.foldl (applyChange storyContext) character.inventory

/-- applyStoryChanges of story.ts lines 83-128 (its pure state computation;
the database write persists exactly the four fields computed here).
Initial values use the JavaScript falsy defaults health 100 and money 500;
a present healthChange is clamped into [0, maxHealth 100] and drives
status to dead at 0; a present moneyChange is floored at 0; a present and
nonempty inventoryChanges list is processed against the character
inventory with the scenario text as context. -/
def applyStoryChanges (character : Character) (storyResponse : StoryResponse) :
    Character :=
  let newHealth := jsOr character.health 100
  let newMoney := jsOr character.money 500
  let healthStatus :=
    match storyResponse.healthChange with
    | some hc =>
      let nh := max 0 (min (jsOr character.maxHealth 100) (newHealth + hc))
      (nh, if nh ≤ 0 then Status.dead else character.status)
    | none => (newHealth, character.status)
  let finalMoney :=
    match storyResponse.moneyChange with
    | some mc => max 0 (newMoney + mc)
    | none => newMoney
  let finalInventory :=
    match storyResponse.inventoryChanges with
    | some changes =>
      if changes.length > 0 then
        processInventoryChanges character changes storyResponse.scenario
      else character.inventory
    | none => character.inventory
  { character with
      health := healthStatus.1
      status := healthStatus.2
      money := finalMoney
      inventory := finalInventory }

/-- Death flag of one applyStoryChanges call: true exactly when the death
branch of story.ts lines 97-101 runs, that is healthChange is present and
the clamped health is at most 0 (the branch that sets status to dead and
logs the death). -/
def diedThisTurn (character : Character) (storyResponse : StoryResponse) :
    Bool :=
  match storyResponse.healthChange with
  | some hc =>
    decide (max 0 (min (jsOr character.maxHealth 100)
      (jsOr character.health 100 + hc)) ≤ 0)
  | none => false

/-- Operation applyOutcome of the spec: the applyStoryChanges result paired
with the diedThisTurn flag surfaced by the code through the status write
and the death log. -/
def applyOutcome (character : Character) (storyResponse : StoryResponse) :
    Character × Bool :=
  (applyStoryChanges character storyResponse, diedThisTurn character storyResponse)

/-- PATCH /:id/status of characters.ts lines 185-204: the requested status
string is validated against the whitelist [alive, dead] and then written
unconditionally, with no check of the current status; an invalid string is
rejected (none). -/
def patchCharacterStatus (character : Character) (status : String) :
    Option Character :=
  if status == "alive" then some { character with status := Status.alive }
  else if status == "dead" then some { character with status := Status.dead }
  else none

/-- Damage amount of the combat route (story.ts lines 544-559): full health
on a dead characterStatus, 10 plus 5 per listed injury on injured,
otherwise 20 on defeat, 5 on victory, 10 by default. -/
def combatHealthChange (character : Character) (cr : CombatResolution) : Int :=
  if cr.characterStatus == "dead" then -character.health
  else if cr.characterStatus == "injured" then
    -(10 + (((cr.characterInjuries.getD []).length : Int) * 5))
  else if cr.outcome == "defeat" then -20
  else if cr.outcome == "victory" then -5
  else -10

/-- Health and status effect of the combat route (story.ts lines 500-575):
the status is first forced to dead when characterStatus is dead (line 502),
the damage is applied with a floor at 0, and a floored health of 0 or a
dead characterStatus zeroes the health and kills the character. -/
def resolveCombatDamage (character : Character) (cr : CombatResolution) :
    Character :=
  let character1 :=
    if cr.characterStatus == "dead" then { character with status := Status.dead }
    else character
  let healthChange := combatHealthChange character1 cr
  let newHealth := max 0 (character1.health + healthChange)
  if newHealth ≤ 0 || cr.characterStatus == "dead" then
    { character1 with health := 0, status := Status.dead }
  else
    { character1 with health := newHealth }

/-- Baseline alive character with the creation-time defaults of
characters.ts (status alive, money 500, health 100, maxHealth 100) and an
empty inventory. -/
def chBase : Character :=
  { id := "c-base", status := Status.alive, inventory := [], money := 500,
    health := 100, maxHealth := 100 }

/-- Story response with every mutation field absent. -/
def outcomeEmpty : StoryResponse :=
  { scenario := "", healthChange := none, moneyChange := none,
    inventoryChanges := none }

/-- Character for the C1 counterexample: zero health, maxHealth 50. -/
def chC1 : Character :=
  { id := "c-one", status := Status.alive, inventory := [], money := 100,
    health := 0, maxHealth := 50 }

/-- Dead character used for the C2 counterexample. -/
def chC2 : Character :=
  { id := "c-two", status := Status.dead, inventory := [], money := 500,
    health := 0, maxHealth := 100 }

/-- Character for the C4 death trigger scenario: health 10, maxHealth 100. -/
def chC4 : Character :=
  { id := "c-four", status := Status.alive, inventory := [], money := 500,
    health := 10, maxHealth := 100 }

/-- Outcome for the C4 death trigger scenario: healthChange -15 only. -/
def outC4 : StoryResponse :=
  { outcomeEmpty with healthChange := some (-15) }

/-- Alive character with a zero money balance (C5 and C10). -/
def chZeroMoney : Character :=
  { id := "c-zero", status := Status.alive, inventory := [], money := 0,
    health := 100, maxHealth := 100 }

/-- Outcome acquiring a Medkit (C6). -/
def oMed : StoryResponse :=
  { outcomeEmpty with
      scenario := "You grab the kit."
      inventoryChanges := some ["+Medkit"] }

/-- Outcome acquiring a Pistol, capitalized (C6). -/
def oPistol1 : StoryResponse :=
  { outcomeEmpty with inventoryChanges := some ["+Pistol"] }

/-- Outcome acquiring a pistol, lower case (C6). -/
def oPistol2 : StoryResponse :=
  { outcomeEmpty with inventoryChanges := some ["+pistol"] }

/-- Inventory entry for a single Pistol of quantity 1 (C6 and C8). -/
def pistolItem : InventoryItem :=
  { name := "Pistol", description := "Standard handgun", quantity := 1,
    type := ItemType.weapon }

/-- Character holding a single Pistol of quantity 1 (C6 and C8). -/
def chPistol : Character :=
  { chBase with inventory := [pistolItem] }

/-- Outcome losing an Ammo item that is not in the inventory (C8). -/
def oAmmo : StoryResponse :=
  { outcomeEmpty with inventoryChanges := some ["-Ammo"] }

/-- Combat resolution with outcome defeat, alive status, no injuries (C9). -/
def crDefeat : CombatResolution :=
  { outcome := "defeat", characterInjuries := none, characterStatus := "alive" }

/-- Outcome with moneyChange -500 (C10 counterexample). -/
def oMinus500 : StoryResponse :=
  { outcomeEmpty with moneyChange := some (-500) }

/-- Classification rule table transcribed from the spec words: an ordered
list of (keyword list, category) pairs tested in order with the earliest
matching rule winning, defaulting to misc. Written from the spec to be
compared against classifyItem, which is written from the code. -/
def classifyRules : List (List String × ItemType) :=
  [(weaponKeywords, ItemType.weapon),
   (cyberwareKeywords, ItemType.cyberware),
   (consumableKeywords, ItemType.consumable),
   (toolKeywords, ItemType.tool)]

/-- First-match interpretation of the rule table of the spec. -/
def classifySpec (itemName : String) : ItemType :=
  match classifyRules.find? (fun r => containsAny (lowerStr itemName) r.1) with
  | some r => r.2
  | none => ItemType.misc

/- Component lemmas: how each field of the applyStoryChanges result is
computed, read off the definition. -/

theorem applyStoryChanges_maxHealth (c : Character) (o : StoryResponse) :
    (applyStoryChanges c o).maxHealth = c.maxHealth := rfl

theorem applyStoryChanges_health_none (c : Character) (o : StoryResponse)
    (h : o.healthChange = none) :
    (applyStoryChanges c o).health = jsOr c.health 100 := by
  simp [applyStoryChanges, h]

theorem applyStoryChanges_health_some (c : Character) (o : StoryResponse)
    (hc : Int) (h : o.healthChange = some hc) :
    (applyStoryChanges c o).health =
      max 0 (min (jsOr c.maxHealth 100) (jsOr c.health 100 + hc)) := by
  simp [applyStoryChanges, h]

theorem applyStoryChanges_money_none (c : Character) (o : StoryResponse)
    (h : o.moneyChange = none) :
    (applyStoryChanges c o).money = jsOr c.money 500 := by
  simp [applyStoryChanges, h]

theorem applyStoryChanges_money_some (c : Character) (o : StoryResponse)
    (m : Int) (h : o.moneyChange = some m) :
    (applyStoryChanges c o).money = max 0 (jsOr c.money 500 + m) := by
  simp [applyStoryChanges, h]

theorem applyStoryChanges_status_none (c : Character) (o : StoryResponse)
    (h : o.healthChange = none) :
    (applyStoryChanges c o).status = c.status := by
  simp [applyStoryChanges, h]

theorem applyStoryChanges_status_some (c : Character) (o : StoryResponse)
    (hc : Int) (h : o.healthChange = some hc) :
    (applyStoryChanges c o).status =
      (if max 0 (min (jsOr c.maxHealth 100) (jsOr c.health 100 + hc)) ≤ 0
       then Status.dead else c.status) := by
  simp [applyStoryChanges, h]

theorem applyStoryChanges_inventory_some (c : Character) (o : StoryResponse)
    (ch : String) (chs : List String) (h : o.inventoryChanges = some (ch :: chs)) :
    (applyStoryChanges c o).inventory =
      processInventoryChanges c (ch :: chs) o.scenario := by
  simp [applyStoryChanges, h]

/-- Dead status survives one applyStoryChanges call: the only status write
in the function sets it to dead. -/
theorem applyStoryChanges_dead_preserved (c : Character) (o : StoryResponse)
    (h : c.status = Status.dead) :
    (applyStoryChanges c o).status = Status.dead := by
  cases hhc : o.healthChange with
  | none => rw [applyStoryChanges_status_none c o hhc, h]
  | some hc =>
    rw [applyStoryChanges_status_some c o hc hhc]
    split <;> simp [h]

/-- Acquire directive when no inventory entry matches the item name
case-insensitively: the new classified entry is appended at the end. -/
theorem addItem_of_no_match (inv : List InventoryItem) (itemName ctx : String)
    (h : ∀ item ∈ inv, lowerStr item.name ≠ lowerStr itemName) :
    addItem inv itemName ctx = inv ++ [newItem itemName ctx] := by
  induction inv with
  | nil => rfl
  | cons item rest ih =>
    have hne : ¬ (lowerStr item.name == lowerStr itemName) = true := by
      simp only [beq_iff_eq]
      exact h item (List.mem_cons_self item rest)
    simp only [addItem, if_neg hne, List.cons_append, List.cons.injEq, true_and]
    exact ih (fun x hx => h x (List.mem_cons_of_mem item hx))

/-- Acquire directive when the first case-insensitive match sits after a
prefix of non-matching entries: that entry gets its quantity incremented
and the inventory keeps its shape. -/
theorem addItem_of_match (pre : List InventoryItem) (item : InventoryItem)
    (post : List InventoryItem) (itemName ctx : String)
    (hpre : ∀ x ∈ pre, lowerStr x.name ≠ lowerStr itemName)
    (hitem : lowerStr item.name = lowerStr itemName) :
    addItem (pre ++ item :: post) itemName ctx =
      pre ++ { item with quantity := item.quantity + 1 } :: post := by
  induction pre with
  | nil => simp [addItem, hitem]
  | cons x rest ih =>
    have hne : ¬ (lowerStr x.name == lowerStr itemName) = true := by
      simp only [beq_iff_eq]
      exact hpre x (List.mem_cons_self x rest)
    simp only [List.cons_append, addItem, if_neg hne, List.cons.injEq, true_and]
    exact ih (fun y hy => hpre y (List.mem_cons_of_mem x hy))

/-- Lose directive when no inventory entry matches: the inventory is
returned unchanged. -/
theorem removeItem_of_no_match (inv : List InventoryItem) (itemName : String)
    (h : ∀ item ∈ inv, lowerStr item.name ≠ lowerStr itemName) :
    removeItem inv itemName = inv := by
  induction inv with
  | nil => rfl
  | cons item rest ih =>
    have hne : ¬ (lowerStr item.name == lowerStr itemName) = true := by
      simp only [beq_iff_eq]
      exact h item (List.mem_cons_self item rest)
    simp only [removeItem, if_neg hne, List.cons.injEq, true_and]
    exact ih (fun x hx => h x (List.mem_cons_of_mem item hx))

/-- Lose directive at the first case-insensitive match: decrement when the
quantity is above 1, splice the entry out otherwise. -/
theorem removeItem_of_match (pre : List InventoryItem) (item : InventoryItem)
    (post : List InventoryItem) (itemName : String)
    (hpre : ∀ x ∈ pre, lowerStr x.name ≠ lowerStr itemName)
    (hitem : lowerStr item.name = lowerStr itemName) :
    removeItem (pre ++ item :: post) itemName =
      pre ++ (if 1 < item.quantity
              then { item with quantity := item.quantity - 1 } :: post
              else post) := by
  induction pre with
  | nil => simp [removeItem, hitem]
  | cons x rest ih =>
    have hne : ¬ (lowerStr x.name == lowerStr itemName) = true := by
      simp only [beq_iff_eq]
      exact hpre x (List.mem_cons_self x rest)
    simp only [List.cons_append, removeItem, if_neg hne, List.cons.injEq, true_and]
    exact ih (fun y hy => hpre y (List.mem_cons_of_mem x hy))

/-- A directive starting with a minus sign does not start with a plus sign. -/
theorem not_plus_of_minus (s : String) (h : strStartsWith s ("-") = true) :
    strStartsWith s ("+") = false := by
  have hminus : ("-" : String).data = ['-'] := rfl
  have hplus : ("+" : String).data = ['+'] := rfl
  unfold strStartsWith at h ⊢
  rw [hminus] at h
  rw [hplus]
  cases hd : s.data with
  | nil => rw [hd] at h; simp [List.isPrefixOf] at h
  | cons c rest =>
    rw [hd] at h
    simp only [List.isPrefixOf, Bool.and_eq_true, beq_iff_eq] at h
    obtain ⟨hc, -⟩ := h
    subst hc
    simp [List.isPrefixOf]

/-- Single acquire directive through processInventoryChanges. -/
theorem processInventoryChanges_acquire (c : Character) (s ctx name : String)
    (h1 : strStartsWith s ("+") = true)
    (h2 : strTrim (strDropOne s) = name) :
    processInventoryChanges c [s] ctx = addItem c.inventory name ctx := by
  simp [processInventoryChanges, applyChange, h1, h2]

/-- Single lose directive through processInventoryChanges. -/
theorem processInventoryChanges_lose (c : Character) (s ctx name : String)
    (h1 : strStartsWith s ("-") = true)
    (h2 : strTrim (strDropOne s) = name) :
    processInventoryChanges c [s] ctx = removeItem c.inventory name := by
  simp [processInventoryChanges, applyChange, not_plus_of_minus s h1, h1, h2]

/-- C1 counterexample: the health bounds invariant fails as stated. For the
character with health 0 and maxHealth 50 and an outcome with healthChange
absent, applyStoryChanges returns health 100, strictly above maxHealth,
because of the JavaScript falsy default health or 100. -/
theorem claim_c1_counterexample :
    (applyStoryChanges chC1 outcomeEmpty).maxHealth <
      (applyStoryChanges chC1 outcomeEmpty).health := by decide

/-- C1 (amended): for every character whose health is strictly positive and
at most maxHealth, and every outcome with healthChange present or absent,
the returned health satisfies 0 <= health <= maxHealth. -/
theorem claim_c1_health_bounds_amended (c : Character) (o : StoryResponse)
    (h1 : 0 < c.health) (h2 : c.health ≤ c.maxHealth) :
    0 ≤ (applyStoryChanges c o).health ∧
      (applyStoryChanges c o).health ≤ (applyStoryChanges c o).maxHealth := by
  rw [applyStoryChanges_maxHealth]
  have hh : jsOr c.health 100 = c.health := by unfold jsOr; split <;> omega
  have hm : jsOr c.maxHealth 100 = c.maxHealth := by unfold jsOr; split <;> omega
  cases hhc : o.healthChange with
  | none =>
    rw [applyStoryChanges_health_none c o hhc, hh]
    omega
  | some hc =>
    rw [applyStoryChanges_health_some c o hc hhc, hh, hm]
    omega

/-- Witness for the amended C1 at the concrete death-trigger character. -/
theorem claim_c1_witness :
    (0 < chC4.health ∧ chC4.health ≤ chC4.maxHealth) ∧
      0 ≤ (applyStoryChanges chC4 outC4).health ∧
      (applyStoryChanges chC4 outC4).health ≤
        (applyStoryChanges chC4 outC4).maxHealth :=
  ⟨⟨by decide, by decide⟩,
    claim_c1_health_bounds_amended chC4 outC4 (by decide) (by decide)⟩

/-- C2 counterexample: the status update route revives. patchCharacterStatus
applied to a dead character with the requested status alive succeeds and
returns the character with status alive, so a server operation other than
applyStoryChanges does transition dead to alive. -/
theorem claim_c2_counterexample :
    chC2.status = Status.dead ∧
      patchCharacterStatus chC2 "alive" =
        some { chC2 with status := Status.alive } := by decide

/-- C2 (amended): once dead, no sequence of applyStoryChanges calls changes
the status back to alive; the PATCH status route, however, can set a dead
character back to alive. -/
theorem claim_c2_death_monotonic_amended (c : Character)
    (os : List StoryResponse) (h : c.status = Status.dead) :
    (os.foldl applyStoryChanges c).status = Status.dead := by
  induction os generalizing c with
  | nil => exact h
  | cons o rest ih => exact ih _ (applyStoryChanges_dead_preserved c o h)

/-- Witness for the amended C2 on a concrete two-outcome sequence. -/
theorem claim_c2_witness :
    chC2.status = Status.dead ∧
      (List.foldl applyStoryChanges chC2 [outC4, oMed]).status = Status.dead :=
  ⟨by decide, claim_c2_death_monotonic_amended chC2 [outC4, oMed] (by decide)⟩

/-- C3: money floor. For every character with a non-negative balance the
returned money is non-negative, and whenever a moneyChange is present the
returned money is non-negative for every character, however large a
negative delta is requested. -/
theorem claim_c3_money_floor (c : Character) (o : StoryResponse) :
    (0 ≤ c.money → 0 ≤ (applyStoryChanges c o).money) ∧
      (∀ m : Int, o.moneyChange = some m → 0 ≤ (applyStoryChanges c o).money) := by
  constructor
  · intro hm
    cases hmc : o.moneyChange with
    | none =>
      rw [applyStoryChanges_money_none c o hmc]
      unfold jsOr; split <;> omega
    | some m =>
      rw [applyStoryChanges_money_some c o m hmc]
      omega
  · intro m hmc
    rw [applyStoryChanges_money_some c o m hmc]
    omega

/-- Witness for C3 at a concrete character and a -500 delta. -/
theorem claim_c3_witness :
    (0 ≤ chBase.money ∧ 0 ≤ (applyStoryChanges chBase oMinus500).money) ∧
      (oMinus500.moneyChange = some (-500) ∧
        0 ≤ (applyStoryChanges chBase oMinus500).money) :=
  ⟨⟨by decide, (claim_c3_money_floor chBase oMinus500).1 (by decide)⟩,
    ⟨by decide, (claim_c3_money_floor chBase oMinus500).2 (-500) (by decide)⟩⟩

/-- C4: death trigger. For the alive character with health 10 and maxHealth
100 and the outcome with healthChange -15, applyOutcome yields health 0,
status dead, and the diedThisTurn flag true. -/
theorem claim_c4_death_trigger :
    (applyOutcome chC4 outC4).1.health = 0 ∧
      (applyOutcome chC4 outC4).1.status = Status.dead ∧
      (applyOutcome chC4 outC4).2 = true := by decide

/-- C5 counterexample: the empty outcome is not the identity. For the alive
character with money 0, applyStoryChanges with all mutation fields absent
returns money 500, different from the input money. -/
theorem claim_c5_counterexample :
    chZeroMoney.status = Status.alive ∧
      (applyStoryChanges chZeroMoney outcomeEmpty).money ≠ chZeroMoney.money := by
  decide

/-- C5 (amended): for every alive character whose health and money are both
nonzero, applying an outcome with all mutation fields absent returns the
character unchanged (in particular equal in health, money, inventory and
status). -/
theorem claim_c5_noop_amended (c : Character) (sc : String)
    (h0 : c.status = Status.alive) (h1 : c.health ≠ 0) (h2 : c.money ≠ 0) :
    applyStoryChanges c
      { scenario := sc, healthChange := none, moneyChange := none,
        inventoryChanges := none } = c := by
  cases c with
  | mk i st inv mo he mh =>
    simp_all [applyStoryChanges, jsOr]

/-- Witness for the amended C5 at the baseline character. -/
theorem claim_c5_witness :
    (chBase.status = Status.alive ∧ chBase.health ≠ 0 ∧ chBase.money ≠ 0) ∧
      applyStoryChanges chBase
        { scenario := "", healthChange := none, moneyChange := none,
          inventoryChanges := none } = chBase :=
  ⟨⟨by decide, by decide, by decide⟩,
    claim_c5_noop_amended chBase "" (by decide) (by decide) (by decide)⟩

/-- C9: combat defeat damage. For every alive character with health 100 and
every combat resolution with outcome defeat whose characterStatus is
neither dead nor injured and which lists no injuries, the computed health
change is -20 and the resulting character has health 80 and status alive. -/
theorem claim_c9_combat_defeat (c : Character) (cr : CombatResolution)
    (hc1 : c.health = 100) (hc2 : c.status = Status.alive)
    (h1 : cr.outcome = "defeat") (h2 : cr.characterStatus ≠ "dead")
    (h3 : cr.characterStatus ≠ "injured")
    (h4 : cr.characterInjuries.getD [] = []) :
    combatHealthChange c cr = -20 ∧
      (resolveCombatDamage c cr).health = 80 ∧
      (resolveCombatDamage c cr).status = Status.alive := by
  have hb2 : (cr.characterStatus == "dead") = false := by simp [h2]
  have hb3 : (cr.characterStatus == "injured") = false := by simp [h3]
  have hb1 : (cr.outcome == "defeat") = true := by simp [h1]
  have hhc : combatHealthChange c cr = -20 := by
    simp [combatHealthChange, hb1, hb2, hb3]
  refine ⟨hhc, ?_, ?_⟩ <;>
    simp [resolveCombatDamage, hb2, hhc, hc1, hc2]

/-- Witness for C9 at the baseline character and the concrete defeat
resolution. -/
theorem claim_c9_witness :
    (chBase.health = 100 ∧ chBase.status = Status.alive ∧
      crDefeat.outcome = "defeat" ∧ crDefeat.characterStatus ≠ "dead" ∧
      crDefeat.characterStatus ≠ "injured" ∧
      crDefeat.characterInjuries.getD [] = []) ∧
      combatHealthChange chBase crDefeat = -20 ∧
      (resolveCombatDamage chBase crDefeat).health = 80 ∧
      (resolveCombatDamage chBase crDefeat).status = Status.alive :=
  ⟨⟨by decide, by decide, by decide, by decide, by decide, by decide⟩,
    claim_c9_combat_defeat chBase crDefeat (by decide) (by decide) (by decide)
      (by decide) (by decide) (by decide)⟩

/-- C10 counterexample: the final clause of the claim fails. For the
character with money 0 and the outcome with moneyChange -500, the returned
money is 0, so the zero balance is preserved through the mutation. -/
theorem claim_c10_counterexample :
    chZeroMoney.money = 0 ∧
      (applyStoryChanges chZeroMoney oMinus500).money = chZeroMoney.money := by
  decide

/-- C10 (amended): for every character with money 0, applyStoryChanges
computes the balance from 500: with moneyChange absent the returned money
is 500, with moneyChange m it is max 0 (500 + m), and the returned money is
0 exactly when m is at most -500 (so a zero balance is preserved only by a
delta of -500 or lower). -/
theorem claim_c10_zero_money_amended (c : Character) (o : StoryResponse)
    (h : c.money = 0) :
    (o.moneyChange = none → (applyStoryChanges c o).money = 500) ∧
      (∀ m : Int, o.moneyChange = some m →
        (applyStoryChanges c o).money = max 0 (500 + m)) ∧
      (∀ m : Int, o.moneyChange = some m →
        ((applyStoryChanges c o).money = 0 ↔ m ≤ -500)) := by
  have hj : jsOr c.money 500 = 500 := by unfold jsOr; simp [h]
  refine ⟨fun hn => ?_, fun m hm => ?_, fun m hm => ?_⟩
  · rw [applyStoryChanges_money_none c o hn, hj]
  · rw [applyStoryChanges_money_some c o m hm, hj]
  · rw [applyStoryChanges_money_some c o m hm, hj]
    omega

/-- Witness for the amended C10 at the zero-money character, exercising both
the absent and the present moneyChange branches. -/
theorem claim_c10_witness :
    chZeroMoney.money = 0 ∧
      (applyStoryChanges chZeroMoney outcomeEmpty).money = 500 ∧
      (applyStoryChanges chZeroMoney oMinus500).money = max 0 (500 + -500) :=
  ⟨by decide,
    (claim_c10_zero_money_amended chZeroMoney outcomeEmpty (by decide)).1
      (by decide),
    (claim_c10_zero_money_amended chZeroMoney oMinus500 (by decide)).2.1
      (-500) (by decide)⟩

/-- C6: case-insensitive inventory merge. An acquire directive whose item
name matches an existing entry case-insensitively increments that first
matching entry by 1 and adds no new entry; concretely, acquiring +Medkit
twice in separate applyStoryChanges calls yields one entry Medkit of
quantity 2 and category consumable, and +Pistol followed by +pistol yields
one entry of quantity 2, not two entries. -/
theorem claim_c6_inventory_merge :
    (∀ (c : Character) (pre post : List InventoryItem) (item : InventoryItem)
        (s ctx name : String),
        strStartsWith s ("+") = true →
        strTrim (strDropOne s) = name →
        c.inventory = pre ++ item :: post →
        (∀ x ∈ pre, lowerStr x.name ≠ lowerStr name) →
        lowerStr item.name = lowerStr name →
        processInventoryChanges c [s] ctx =
          pre ++ { item with quantity := item.quantity + 1 } :: post) ∧
      (applyStoryChanges (applyStoryChanges chBase oMed) oMed).inventory =
        [{ name := "Medkit", description := "Acquired: You grab the kit.",
           quantity := 2, type := ItemType.consumable }] ∧
      (applyStoryChanges (applyStoryChanges chBase oPistol1) oPistol2).inventory =
        [{ name := "Pistol", description := "Acquired: ", quantity := 2,
           type := ItemType.weapon }] := by
  refine ⟨?_, by decide, by decide⟩
  intro c pre post item s ctx name h1 h2 hinv hpre hitem
  rw [processInventoryChanges_acquire c s ctx name h1 h2, hinv]
  exact addItem_of_match pre item post name ctx hpre hitem

/-- Witness for C6: the lower-case +pistol directive increments the
capitalized Pistol entry. -/
theorem claim_c6_witness :
    (strStartsWith "+pistol" ("+") = true ∧
      strTrim (strDropOne "+pistol") = "pistol" ∧
      chPistol.inventory = [] ++ pistolItem :: [] ∧
      lowerStr pistolItem.name = lowerStr "pistol") ∧
      processInventoryChanges chPistol ["+pistol"] "" =
        [] ++ { pistolItem with quantity := pistolItem.quantity + 1 } :: [] :=
  ⟨⟨by decide, by decide, by decide, by decide⟩,
    claim_c6_inventory_merge.1 chPistol [] [] pistolItem "+pistol" "" "pistol"
      (by decide) (by decide) (by decide) (by simp) (by decide)⟩

/-- C7: new-item classification. The classification of the code equals the
first-match reading of the ordered rule table of the spec for every item
name, and an acquire directive naming an item with no case-insensitive
match appends a new entry of quantity 1 whose description embeds the first
100 characters of the scenario text and whose category is the inferred
one. -/
theorem claim_c7_new_item_classification :
    (∀ name : String, classifySpec name = classifyItem name) ∧
      (∀ (c : Character) (s ctx name : String),
        strStartsWith s ("+") = true →
        strTrim (strDropOne s) = name →
        (∀ x ∈ c.inventory, lowerStr x.name ≠ lowerStr name) →
        processInventoryChanges c [s] ctx =
          c.inventory ++
            [{ name := name, description := "Acquired: " ++ strTakeN ctx 100,
               quantity := 1, type := classifyItem name }]) := by
  constructor
  · intro n
    by_cases h1 : containsAny (lowerStr n) weaponKeywords = true <;>
    by_cases h2 : containsAny (lowerStr n) cyberwareKeywords = true <;>
    by_cases h3 : containsAny (lowerStr n) consumableKeywords = true <;>
    by_cases h4 : containsAny (lowerStr n) toolKeywords = true <;>
    simp [classifySpec, classifyRules, classifyItem, List.find?, h1, h2, h3, h4]
  · intro c s ctx name h1 h2 hno
    rw [processInventoryChanges_acquire c s ctx name h1 h2]
    rw [addItem_of_no_match c.inventory name ctx hno]
    rfl

/-- Witness for C7: acquiring a Medkit on an empty inventory creates the
classified consumable entry. -/
theorem claim_c7_witness :
    (strStartsWith "+Medkit" ("+") = true ∧
      strTrim (strDropOne "+Medkit") = "Medkit") ∧
      processInventoryChanges chBase ["+Medkit"] "You grab the kit." =
        chBase.inventory ++
          [{ name := "Medkit",
             description := "Acquired: " ++ strTakeN "You grab the kit." 100,
             quantity := 1, type := classifyItem "Medkit" }] :=
  ⟨⟨by decide, by decide⟩,
    claim_c7_new_item_classification.2 chBase "+Medkit" "You grab the kit."
      "Medkit" (by decide) (by decide) (by simp [chBase])⟩

/-- C8: lose-directive semantics. A lose directive at the first
case-insensitive match decrements the entry when its quantity exceeds 1 and
removes it entirely when its quantity equals 1; with no matching entry the
directive is a no-op, never an error; concretely, losing -Ammo against an
inventory holding only a Pistol leaves the inventory unchanged. -/
theorem claim_c8_lose_directive :
    (∀ (c : Character) (pre post : List InventoryItem) (item : InventoryItem)
        (s ctx name : String),
        strStartsWith s ("-") = true →
        strTrim (strDropOne s) = name →
        c.inventory = pre ++ item :: post →
        (∀ x ∈ pre, lowerStr x.name ≠ lowerStr name) →
        lowerStr item.name = lowerStr name →
        (1 < item.quantity →
          processInventoryChanges c [s] ctx =
            pre ++ { item with quantity := item.quantity - 1 } :: post) ∧
        (item.quantity = 1 →
          processInventoryChanges c [s] ctx = pre ++ post)) ∧
      (∀ (c : Character) (s ctx name : String),
        strStartsWith s ("-") = true →
        strTrim (strDropOne s) = name →
        (∀ x ∈ c.inventory, lowerStr x.name ≠ lowerStr name) →
        processInventoryChanges c [s] ctx = c.inventory) ∧
      (applyStoryChanges chPistol oAmmo).inventory = chPistol.inventory := by
  refine ⟨?_, ?_, by decide⟩
  · intro c pre post item s ctx name h1 h2 hinv hpre hitem
    rw [processInventoryChanges_lose c s ctx name h1 h2, hinv]
    rw [removeItem_of_match pre item post name hpre hitem]
    constructor
    · intro hq
      rw [if_pos hq]
    · intro hq
      rw [if_neg (by omega)]
  · intro c s ctx name h1 h2 hno
    rw [processInventoryChanges_lose c s ctx name h1 h2]
    exact removeItem_of_no_match c.inventory name hno

/-- Witness for C8: losing an Ammo that is not in the Pistol-only inventory
changes nothing. -/
theorem claim_c8_witness :
    (strStartsWith "-Ammo" ("-") = true ∧
      strTrim (strDropOne "-Ammo") = "Ammo") ∧
      processInventoryChanges chPistol ["-Ammo"] "" = chPistol.inventory :=
  ⟨⟨by decide, by decide⟩,
    claim_c8_lose_directive.2.1 chPistol "-Ammo" "" "Ammo" (by decide)
      (by decide)
      (by
        intro x hx
        have hx2 : x ∈ [pistolItem] := hx
        rw [List.mem_singleton] at hx2
        subst hx2
        decide)⟩

end NeonThreads
